import Mathlib

set_option maxHeartbeats 1000000

/-
Shallow embedding of the request-validation and multipart-ingestion pipeline
of the Gemini Flash API gateway (src/index.js).  Pure functions of the source
become Lean functions; the express handlers become functions from the request
pieces they read (the prompt field of the body, the uploaded file) to the HTTP
response they produce, paired with the list of collaborator calls they make.
The external generation collaborator is a parameter of type
Contents -> Except String String.
-/

namespace GeminiFlashApi

/-- A JavaScript value, covering the shapes the prompt field of a request body
can take: an absent field reads as undefined; JSON can supply null, booleans,
numbers, strings; all other objects are collapsed into one constructor because
the source only ever distinguishes strings (via typeof) and nullish values. -/
inductive JSValue where
  | vUndefined
  | vNull
  | vBool (b : Bool)
  | vNum (n : Int)
  | vStr (s : String)
  | vObj
deriving DecidableEq

/-- JavaScript nullish coalescing a ?? b: yields b when a is null or undefined,
otherwise a. -/
def jsNullish (a b : JSValue) : JSValue :=
  match a with
  | .vUndefined => b
  | .vNull => b
  | _ => a

/-- Code points removed by JavaScript String.prototype.trim: the WhiteSpace and
LineTerminator productions (space, tab, LF, VT, FF, CR, NBSP, Unicode space
separators, LS, PS, NNBSP, MMSP, ideographic space, BOM). -/
def isJsWhitespace (c : Char) : Bool :=
  let n := c.toNat
  n == 32 || n == 9 || n == 10 || n == 11 || n == 12 || n == 13 ||
  n == 0xa0 || n == 0x1680 || (decide (0x2000 ≤ n) && decide (n ≤ 0x200a)) ||
  n == 0x2028 || n == 0x2029 || n == 0x202f || n == 0x205f ||
  n == 0x3000 || n == 0xfeff

/-- JavaScript String.prototype.trim: drop leading and trailing whitespace. -/
def jsTrim (s : String) : String :=
  String.mk (((s.data.dropWhile isJsWhitespace).reverse.dropWhile isJsWhitespace).reverse)

/-- Source line 66: isPromptValid(prompt) holds when prompt is a string whose
trimmed length is positive. -/
def isPromptValid (prompt : JSValue) : Bool :=
  match prompt with
  | .vStr s => decide ((jsTrim s).length > 0)
  | _ => false

/-- Source line 9. -/
def MAX_FILE_SIZE_MB : Nat := 5

/-- Source line 10. -/
def MAX_FILE_SIZE_BYTES : Nat := MAX_FILE_SIZE_MB * 1024 * 1024

/-- Source line 11. -/
def IMAGE_MIME_TYPES : List String :=
  ["image/png", "image/jpeg", "image/jpg", "image/webp"]

/-- Source lines 12-17. -/
def DOCUMENT_MIME_TYPES : List String :=
  ["application/pdf", "application/msword",
   "application/vnd.openxmlformats-officedocument.wordprocessingml.document",
   "text/plain"]

/-- Source line 18. -/
def AUDIO_MIME_TYPES : List String :=
  ["audio/mpeg", "audio/mp3", "audio/wav", "audio/x-wav", "audio/webm", "audio/ogg"]

/-- An uploaded multipart file as multer presents it to the handler: the
declared content type (Option, mirroring the optional chaining on
file.mimetype in the source), its size in bytes, and its buffered bytes. -/
structure UploadedFile where
  mimetype : Option String
  size : Nat
  buffer : List Nat
deriving DecidableEq

/-- Lower-casing of one character on the ASCII range, as JavaScript
toLowerCase acts on the ASCII content types this service compares. -/
def jsToLowerChar (c : Char) : Char :=
  if 65 ≤ c.toNat ∧ c.toNat ≤ 90 then Char.ofNat (c.toNat + 32) else c

/-- JavaScript String.prototype.toLowerCase, modelled on the ASCII range,
which covers every allow-list entry. -/
def jsToLowerCase (s : String) : String := String.mk (s.data.map jsToLowerChar)

/-- The multer fileFilter closure, source lines 24-30: lower-case the declared
type (missing type reads as the empty string) and reject with the literal
message unless it is in the allow-list. -/
def fileFilter (allowedMimeTypes : List String) (file : UploadedFile) :
    Except String Unit :=
  let mimetype := (file.mimetype.map jsToLowerCase).getD ""
  if !(allowedMimeTypes.contains mimetype) then
    Except.error ("Invalid file type. Allowed types: " ++
      String.intercalate ", " allowedMimeTypes)
  else
    Except.ok ()

/-- Outcome of the upload middleware wrapper (source lines 33-43): either the
request proceeds to the handler body carrying req.file, or it is answered
400 with a message and the handler body never runs. -/
inductive GateResult where
  | pass (file : Option UploadedFile)
  | reject (message : String)
deriving DecidableEq

/-- createUploadMiddleware, source lines 20-44, composed with the multer
single-file semantics it configures: with no file under the field the gate
passes and req.file is undefined; with a file, multer invokes fileFilter on
the file metadata before buffering any bytes, so a type rejection precedes
the size limit; the LIMIT_FILE_SIZE error fires only for files strictly
larger than the configured ceiling, and the wrapper maps it to the size
message while any other error surfaces its own message.  Either error is
answered 400 before the handler body runs. -/
def createUploadMiddleware (fieldName : String) (allowedMimeTypes : List String)
    (file : Option UploadedFile) : GateResult :=
  match file with
  | none => GateResult.pass none
  | some f =>
    match fileFilter allowedMimeTypes f with
    | Except.error msg => GateResult.reject msg
    | Except.ok () =>
      if f.size > MAX_FILE_SIZE_BYTES then
        GateResult.reject ("File size exceeds " ++ toString MAX_FILE_SIZE_MB ++ "MB limit")
      else
        GateResult.pass (some f)

/-- The base64 alphabet. -/
def base64Table : List Char :=
  "ABCDEFGHIJKLMNOPQRSTUVWXYZabcdefghijklmnopqrstuvwxyz0123456789+/".data

/-- Digit of the base64 alphabet. -/
def base64Digit (n : Nat) : Char := base64Table.getD (n % 64) 'A'

/-- Node Buffer.prototype.toString with encoding base64: standard padded
base64 over the byte list. -/
def base64Encode : List Nat → String
  | [] => ""
  | [a] =>
    let b1 := a % 256
    String.mk [base64Digit (b1 / 4), base64Digit ((b1 % 4) * 16), '=', '=']
  | [a, b] =>
    let b1 := a % 256
    let b2 := b % 256
    String.mk [base64Digit (b1 / 4), base64Digit ((b1 % 4) * 16 + b2 / 16),
      base64Digit ((b2 % 16) * 4), '=']
  | a :: b :: c :: rest =>
    let b1 := a % 256
    let b2 := b % 256
    let b3 := c % 256
    String.mk [base64Digit (b1 / 4), base64Digit ((b1 % 4) * 16 + b2 / 16),
      base64Digit ((b2 % 16) * 4 + b3 / 64), base64Digit (b3 % 64)] ++
    base64Encode rest

/-- One segment of the payload handed to the generation collaborator: a text
segment (carrying whatever JS value the source put in the text field) or an
inlined base64 binary segment with its declared MIME type. -/
inductive ContentPart where
  | text (t : JSValue)
  | inlineData (data : String) (mimeType : Option String)
deriving DecidableEq

/-- The contents argument of a generateContent call: the text route passes the
prompt value directly, the media routes pass a list of parts. -/
inductive Contents where
  | str (s : JSValue)
  | parts (l : List ContentPart)
deriving DecidableEq

/-- The JSON body of an HTTP response of this service: either an error object
with a message field or a success object with a result field. -/
inductive ResponseBody where
  | message (m : String)
  | result (r : String)
deriving DecidableEq

/-- An HTTP response: status code and JSON body. -/
structure HttpResponse where
  status : Nat
  body : ResponseBody
deriving DecidableEq

/-- The external generation collaborator: receives the contents payload and
either returns the generated text or raises an error with a message. -/
abbrev Collaborator := Contents → Except String String

/-- Handler of POST /generate-text, source lines 72-90.  The first component
is the single HTTP response sent; the second is the list of collaborator
calls made while handling the request. -/
def postGenerateText (genAI : Collaborator) (prompt : JSValue) :
    HttpResponse × List Contents :=
  if !isPromptValid prompt then
    (⟨400, ResponseBody.message "prompt is required"⟩, [])
  else
    let contents := Contents.str prompt
    match genAI contents with
    | Except.ok t => (⟨200, ResponseBody.result t⟩, [contents])
    | Except.error m => (⟨500, ResponseBody.message m⟩, [contents])

/-- Body of the POST /generate-from-image handler, source lines 93-124 (after
the upload middleware has passed). -/
def generateFromImageBody (genAI : Collaborator) (prompt : JSValue)
    (file : Option UploadedFile) : HttpResponse × List Contents :=
  if !isPromptValid prompt then
    (⟨400, ResponseBody.message "prompt is required"⟩, [])
  else
    match file with
    | none => (⟨400, ResponseBody.message "image file is required"⟩, [])
    | some f =>
      let base64Image := base64Encode f.buffer
      let mimetype := f.mimetype
      let contents := Contents.parts
        [ContentPart.text prompt, ContentPart.inlineData base64Image mimetype]
      match genAI contents with
      | Except.ok t => (⟨200, ResponseBody.result t⟩, [contents])
      | Except.error m => (⟨500, ResponseBody.message m⟩, [contents])

/-- POST /generate-from-image, source line 92: upload middleware then handler
body. -/
def postGenerateFromImage (genAI : Collaborator) (prompt : JSValue)
    (file : Option UploadedFile) : HttpResponse × List Contents :=
  match createUploadMiddleware "image" IMAGE_MIME_TYPES file with
  | GateResult.reject msg => (⟨400, ResponseBody.message msg⟩, [])
  | GateResult.pass f => generateFromImageBody genAI prompt f

/-- Body of the POST /generate-from-document handler, source lines 128-159.
The nullish default on the text field (source line 147) is kept exactly as
written, although the isPromptValid check above it makes it unreachable. -/
def generateFromDocumentBody (genAI : Collaborator) (prompt : JSValue)
    (file : Option UploadedFile) : HttpResponse × List Contents :=
  if !isPromptValid prompt then
    (⟨400, ResponseBody.message "prompt is required"⟩, [])
  else
    match file with
    | none => (⟨400, ResponseBody.message "document file is required"⟩, [])
    | some f =>
      let base64Document := base64Encode f.buffer
      let mimetype := f.mimetype
      let contents := Contents.parts
        [ContentPart.text (jsNullish prompt
            (JSValue.vStr "Please summarize the content of the document.")),
         ContentPart.inlineData base64Document mimetype]
      match genAI contents with
      | Except.ok t => (⟨200, ResponseBody.result t⟩, [contents])
      | Except.error m => (⟨500, ResponseBody.message m⟩, [contents])

/-- POST /generate-from-document, source line 127. -/
def postGenerateFromDocument (genAI : Collaborator) (prompt : JSValue)
    (file : Option UploadedFile) : HttpResponse × List Contents :=
  match createUploadMiddleware "document" DOCUMENT_MIME_TYPES file with
  | GateResult.reject msg => (⟨400, ResponseBody.message msg⟩, [])
  | GateResult.pass f => generateFromDocumentBody genAI prompt f

/-- Body of the POST /generate-from-audio handler, source lines 163-194, with
the same unreachable nullish default (source line 182). -/
def generateFromAudioBody (genAI : Collaborator) (prompt : JSValue)
    (file : Option UploadedFile) : HttpResponse × List Contents :=
  if !isPromptValid prompt then
    (⟨400, ResponseBody.message "prompt is required"⟩, [])
  else
    match file with
    | none => (⟨400, ResponseBody.message "audio file is required"⟩, [])
    | some f =>
      let base64Audio := base64Encode f.buffer
      let mimetype := f.mimetype
      let contents := Contents.parts
        [ContentPart.text (jsNullish prompt
            (JSValue.vStr "Please transcribe the audio content.")),
         ContentPart.inlineData base64Audio mimetype]
      match genAI contents with
      | Except.ok t => (⟨200, ResponseBody.result t⟩, [contents])
      | Except.error m => (⟨500, ResponseBody.message m⟩, [contents])

/-- POST /generate-from-audio, source line 162. -/
def postGenerateFromAudio (genAI : Collaborator) (prompt : JSValue)
    (file : Option UploadedFile) : HttpResponse × List Contents :=
  match createUploadMiddleware "audio" AUDIO_MIME_TYPES file with
  | GateResult.reject msg => (⟨400, ResponseBody.message msg⟩, [])
  | GateResult.pass f => generateFromAudioBody genAI prompt f

/-- The three attachment-carrying routes. -/
inductive AttachmentCategory where
  | image
  | document
  | audio
deriving DecidableEq

/-- The allow-list a category configures. -/
def allowListFor : AttachmentCategory → List String
  | .image => IMAGE_MIME_TYPES
  | .document => DOCUMENT_MIME_TYPES
  | .audio => AUDIO_MIME_TYPES

/-- The multipart field name a category uses. -/
def fieldNameFor : AttachmentCategory → String
  | .image => "image"
  | .document => "document"
  | .audio => "audio"

/-- Dispatch to the route of a category. -/
def postRoute : AttachmentCategory → Collaborator → JSValue →
    Option UploadedFile → HttpResponse × List Contents
  | .image => postGenerateFromImage
  | .document => postGenerateFromDocument
  | .audio => postGenerateFromAudio

/-- A stubbed collaborator that always succeeds with a fixed text. -/
def stubOk : Collaborator := fun _ => Except.ok "hi there"

/-- A stubbed collaborator that always raises a quota error. -/
def stubErr : Collaborator := fun _ => Except.error "quota exceeded"

/-- A small valid PDF attachment. -/
def pdfFile : UploadedFile := ⟨some "application/pdf", 1024, [37, 80, 68, 70]⟩

/-- A small valid audio attachment. -/
def mp3File : UploadedFile := ⟨some "audio/mpeg", 2048, [73, 68, 51]⟩

/-- A small valid image attachment. -/
def pngFile : UploadedFile := ⟨some "image/png", 4, [137, 80, 78, 71]⟩

/-- An image attachment of exactly the size ceiling. -/
def boundaryFile : UploadedFile := ⟨some "image/png", 5 * 1024 * 1024, []⟩

/-- An image attachment one byte over the size ceiling. -/
def oversizedPngFile : UploadedFile := ⟨some "image/png", 5 * 1024 * 1024 + 1, []⟩

/-- An attachment one byte over the size ceiling whose type no image route
accepts. -/
def oversizedBadTypeFile : UploadedFile :=
  ⟨some "text/plain", 5 * 1024 * 1024 + 1, []⟩

/-- The size message built by the middleware equals its literal form. -/
theorem sizeMessage_eq :
    "File size exceeds " ++ toString MAX_FILE_SIZE_MB ++ "MB limit"
      = "File size exceeds 5MB limit" := rfl

/-- A file whose type passes the filter and whose size is within the ceiling
passes the upload gate unchanged. -/
theorem gatePass (fieldName : String) (allowed : List String) (f : UploadedFile)
    (ht : fileFilter allowed f = Except.ok ())
    (hs : f.size ≤ MAX_FILE_SIZE_BYTES) :
    createUploadMiddleware fieldName allowed (some f) = GateResult.pass (some f) := by
  simp [createUploadMiddleware, ht, Nat.not_lt.mpr hs]

/-- Claim C1: evaluating the code at the inputs of the claim shows the
divergence: a document (resp. audio) request whose attachment passes the
upload gate but whose prompt field is absent is answered 400 with message
prompt is required, and the collaborator is never invoked, for any
collaborator and any attachment -- the claimed default text is never used. -/
theorem C1_code_divergence :
    postGenerateFromDocument stubOk JSValue.vUndefined (some pdfFile)
      = (⟨400, ResponseBody.message "prompt is required"⟩, [])
    ∧ postGenerateFromAudio stubOk JSValue.vUndefined (some mp3File)
      = (⟨400, ResponseBody.message "prompt is required"⟩, [])
    ∧ (∀ (g : Collaborator) (f : Option UploadedFile),
        (postGenerateFromDocument g JSValue.vUndefined f).2 = []
        ∧ (postGenerateFromAudio g JSValue.vUndefined f).2 = []) := by
  refine ⟨rfl, rfl, fun g f => ⟨?_, ?_⟩⟩
  · unfold postGenerateFromDocument
    cases createUploadMiddleware "document" DOCUMENT_MIME_TYPES f with
    | reject msg => rfl
    | pass f => cases f <;> rfl
  · unfold postGenerateFromAudio
    cases createUploadMiddleware "audio" AUDIO_MIME_TYPES f with
    | reject msg => rfl
    | pass f => cases f <;> rfl

/-- Claim C2: for every attachment category and every declared content type
(a missing type read as the empty string), the type check accepts exactly
when the lower-cased type is a member of the allow-list of the category, and
on rejection the message is the literal prefix followed by the
comma-space-joined allow-list. -/
theorem C2_typeCheck (cat : AttachmentCategory) (file : UploadedFile) :
    (fileFilter (allowListFor cat) file = Except.ok ()
        ↔ ((file.mimetype.map jsToLowerCase).getD "") ∈ allowListFor cat)
    ∧ (((file.mimetype.map jsToLowerCase).getD "") ∉ allowListFor cat →
        fileFilter (allowListFor cat) file
          = Except.error ("Invalid file type. Allowed types: "
              ++ String.intercalate ", " (allowListFor cat))) := by
  unfold fileFilter
  by_cases h : ((file.mimetype.map jsToLowerCase).getD "") ∈ allowListFor cat
  · simp [h, List.elem_iff.mpr h, List.contains]
  · have hc : ((allowListFor cat).contains
        ((file.mimetype.map jsToLowerCase).getD "")) = false := by
      simp [List.contains, h, List.elem_iff]
    simp [h, hc]

/-- Claim C2 witness: a plain-text declared type is rejected by the image
category with the image allow-list message. -/
theorem C2_typeCheck_witness :
    fileFilter (allowListFor AttachmentCategory.image)
        ⟨some "text/plain", 4, []⟩
      = Except.error ("Invalid file type. Allowed types: "
          ++ String.intercalate ", " (allowListFor AttachmentCategory.image)) :=
  (C2_typeCheck AttachmentCategory.image ⟨some "text/plain", 4, []⟩).2 (by decide)

/-- Claim C3 counterexample: a file one byte over the ceiling whose declared
type is not in the image allow-list is rejected by the image upload gate with
the type message, not the size message, and the image route answers 400 with
that type message. -/
theorem C3_counterexample :
    oversizedBadTypeFile.size > 5 * 1024 * 1024
    ∧ createUploadMiddleware "image" IMAGE_MIME_TYPES (some oversizedBadTypeFile)
        = GateResult.reject
            "Invalid file type. Allowed types: image/png, image/jpeg, image/jpg, image/webp"
    ∧ createUploadMiddleware "image" IMAGE_MIME_TYPES (some oversizedBadTypeFile)
        ≠ GateResult.reject "File size exceeds 5MB limit"
    ∧ postGenerateFromImage stubOk (JSValue.vStr "hi") (some oversizedBadTypeFile)
        = (⟨400, ResponseBody.message
            "Invalid file type. Allowed types: image/png, image/jpeg, image/jpg, image/webp"⟩,
           []) := by
  refine ⟨by decide, rfl, by decide, rfl⟩

/-- Claim C3 (amended): every multipart request to an attachment route whose
file passes the type check and is larger than 5 * 1024 * 1024 bytes is
answered 400 with message File size exceeds 5MB limit, for any collaborator
and any prompt, with no collaborator call made (the handler body never runs). -/
theorem C3_amended_sizeGate (r : AttachmentCategory) (g : Collaborator)
    (prompt : JSValue) (f : UploadedFile)
    (ht : fileFilter (allowListFor r) f = Except.ok ())
    (hs : f.size > MAX_FILE_SIZE_BYTES) :
    postRoute r g prompt (some f)
      = (⟨400, ResponseBody.message "File size exceeds 5MB limit"⟩, []) := by
  cases r <;>
    simp_all [postRoute, postGenerateFromImage, postGenerateFromDocument,
      postGenerateFromAudio, createUploadMiddleware, allowListFor,
      sizeMessage_eq]

/-- Claim C3 witness: an image one byte over the ceiling is answered 400 with
the size message. -/
theorem C3_amended_witness :
    postRoute AttachmentCategory.image stubOk (JSValue.vStr "hi")
        (some oversizedPngFile)
      = (⟨400, ResponseBody.message "File size exceeds 5MB limit"⟩, []) :=
  C3_amended_sizeGate AttachmentCategory.image stubOk (JSValue.vStr "hi")
    oversizedPngFile rfl (by decide)

/-- Claim C4: on the image route, an attachment that passes the upload gate
with no prompt field yields 400 prompt is required with no collaborator call;
and the prompt check precedes the attachment check: with no file at all, a
missing prompt still yields prompt is required, not the file message. -/
theorem C4_imagePromptFirst (g : Collaborator) (f : UploadedFile)
    (ht : fileFilter IMAGE_MIME_TYPES f = Except.ok ())
    (hs : f.size ≤ MAX_FILE_SIZE_BYTES) :
    postGenerateFromImage g JSValue.vUndefined (some f)
      = (⟨400, ResponseBody.message "prompt is required"⟩, [])
    ∧ postGenerateFromImage g JSValue.vUndefined none
      = (⟨400, ResponseBody.message "prompt is required"⟩, []) := by
  constructor
  · unfold postGenerateFromImage
    rw [gatePass "image" IMAGE_MIME_TYPES f ht hs]
    rfl
  · rfl

/-- Claim C4 witness. -/
theorem C4_witness :
    postGenerateFromImage stubOk JSValue.vUndefined (some pngFile)
      = (⟨400, ResponseBody.message "prompt is required"⟩, [])
    ∧ postGenerateFromImage stubOk JSValue.vUndefined none
      = (⟨400, ResponseBody.message "prompt is required"⟩, []) :=
  C4_imagePromptFirst stubOk pngFile rfl (by decide)

/-- Claim C5: the prompt validity predicate succeeds exactly on strings whose
length after trimming is at least 1, and fails on the empty string,
whitespace-only strings, null, undefined, and every non-string value. -/
theorem C5_promptPredicate :
    (∀ s : String, (isPromptValid (JSValue.vStr s) = true ↔ 1 ≤ (jsTrim s).length))
    ∧ isPromptValid (JSValue.vStr "") = false
    ∧ isPromptValid (JSValue.vStr "   ") = false
    ∧ isPromptValid JSValue.vNull = false
    ∧ isPromptValid JSValue.vUndefined = false
    ∧ (∀ b, isPromptValid (JSValue.vBool b) = false)
    ∧ (∀ n, isPromptValid (JSValue.vNum n) = false)
    ∧ isPromptValid JSValue.vObj = false := by
  refine ⟨fun s => ?_, by decide, by decide, rfl, rfl, fun b => rfl,
    fun n => rfl, rfl⟩
  simp [isPromptValid]
  omega

/-- Claim C6: a request that passes the upload gate with a valid prompt but no
file under the expected field is answered 400 with the route-specific file
message and the collaborator is not invoked. -/
theorem C6_missingFile (r : AttachmentCategory) (g : Collaborator)
    (prompt : JSValue) (hp : isPromptValid prompt = true) :
    postRoute r g prompt none
      = (⟨400, ResponseBody.message (fieldNameFor r ++ " file is required")⟩, []) := by
  have hnp : (!isPromptValid prompt) = false := by rw [hp]; rfl
  cases r <;>
    simp [postRoute, postGenerateFromImage, postGenerateFromDocument,
      postGenerateFromAudio, createUploadMiddleware, generateFromImageBody,
      generateFromDocumentBody, generateFromAudioBody, hnp, fieldNameFor]

/-- Claim C6 witness. -/
theorem C6_witness :
    postRoute AttachmentCategory.document stubOk (JSValue.vStr "hello") none
      = (⟨400, ResponseBody.message
          (fieldNameFor AttachmentCategory.document ++ " file is required")⟩, []) :=
  C6_missingFile AttachmentCategory.document stubOk (JSValue.vStr "hello")
    (by decide)

/-- Claim C7: when all gates and validations pass and the collaborator returns
text t, the endpoints answer 200 with result t passed through verbatim. -/
theorem C7_successVerbatim (g : Collaborator) (t : String)
    (hg : ∀ c, g c = Except.ok t)
    (p : String) (hp : isPromptValid (JSValue.vStr p) = true)
    (r : AttachmentCategory) (f : UploadedFile)
    (ht : fileFilter (allowListFor r) f = Except.ok ())
    (hs : f.size ≤ MAX_FILE_SIZE_BYTES) :
    (postGenerateText g (JSValue.vStr p)).1 = ⟨200, ResponseBody.result t⟩
    ∧ (postRoute r g (JSValue.vStr p) (some f)).1 = ⟨200, ResponseBody.result t⟩ := by
  have hnp : (!isPromptValid (JSValue.vStr p)) = false := by rw [hp]; rfl
  constructor
  · simp [postGenerateText, hnp, hg]
  · cases r <;>
      simp_all [postRoute, postGenerateFromImage, postGenerateFromDocument,
        postGenerateFromAudio, allowListFor, createUploadMiddleware,
        generateFromImageBody, generateFromDocumentBody, generateFromAudioBody,
        Nat.not_lt.mpr hs, hg]

/-- Claim C7 witness. -/
theorem C7_witness :
    (postGenerateText stubOk (JSValue.vStr "hello")).1
      = ⟨200, ResponseBody.result "hi there"⟩
    ∧ (postRoute AttachmentCategory.image stubOk (JSValue.vStr "hello")
        (some pngFile)).1 = ⟨200, ResponseBody.result "hi there"⟩ :=
  C7_successVerbatim stubOk "hi there" (fun _ => rfl) "hello" (by decide)
    AttachmentCategory.image pngFile rfl (by decide)

/-- Claim C8: when the collaborator raises an error with message m, the
endpoints produce exactly one response, 500 with message m unmodified, and
the collaborator is called exactly once -- no retry. -/
theorem C8_upstreamFailure (g : Collaborator) (m : String)
    (hg : ∀ c, g c = Except.error m)
    (p : String) (hp : isPromptValid (JSValue.vStr p) = true)
    (r : AttachmentCategory) (f : UploadedFile)
    (ht : fileFilter (allowListFor r) f = Except.ok ())
    (hs : f.size ≤ MAX_FILE_SIZE_BYTES) :
    (postGenerateText g (JSValue.vStr p)).1 = ⟨500, ResponseBody.message m⟩
    ∧ (postGenerateText g (JSValue.vStr p)).2.length = 1
    ∧ (postRoute r g (JSValue.vStr p) (some f)).1 = ⟨500, ResponseBody.message m⟩
    ∧ (postRoute r g (JSValue.vStr p) (some f)).2.length = 1 := by
  have hnp : (!isPromptValid (JSValue.vStr p)) = false := by rw [hp]; rfl
  refine ⟨?_, ?_, ?_, ?_⟩
  · simp [postGenerateText, hnp, hg]
  · simp [postGenerateText, hnp, hg]
  · cases r <;>
      simp_all [postRoute, postGenerateFromImage, postGenerateFromDocument,
        postGenerateFromAudio, allowListFor, createUploadMiddleware,
        generateFromImageBody, generateFromDocumentBody, generateFromAudioBody,
        Nat.not_lt.mpr hs, hg]
  · cases r <;>
      simp_all [postRoute, postGenerateFromImage, postGenerateFromDocument,
        postGenerateFromAudio, allowListFor, createUploadMiddleware,
        generateFromImageBody, generateFromDocumentBody, generateFromAudioBody,
        Nat.not_lt.mpr hs, hg]

/-- Claim C8 witness. -/
theorem C8_witness :
    (postGenerateText stubErr (JSValue.vStr "hello")).1
      = ⟨500, ResponseBody.message "quota exceeded"⟩
    ∧ (postGenerateText stubErr (JSValue.vStr "hello")).2.length = 1
    ∧ (postRoute AttachmentCategory.audio stubErr (JSValue.vStr "hello")
        (some mp3File)).1 = ⟨500, ResponseBody.message "quota exceeded"⟩
    ∧ (postRoute AttachmentCategory.audio stubErr (JSValue.vStr "hello")
        (some mp3File)).2.length = 1 :=
  C8_upstreamFailure stubErr "quota exceeded" (fun _ => rfl) "hello" (by decide)
    AttachmentCategory.audio mp3File rfl (by decide)

/-- Claim C9: the text segment handed to the collaborator is the caller
prompt string verbatim -- whitespace preserved, no trimming between
validation and the generation call -- on the text route and on every
attachment route. -/
theorem C9_promptVerbatim (g : Collaborator) (p : String)
    (hp : isPromptValid (JSValue.vStr p) = true)
    (r : AttachmentCategory) (f : UploadedFile)
    (ht : fileFilter (allowListFor r) f = Except.ok ())
    (hs : f.size ≤ MAX_FILE_SIZE_BYTES) :
    (postGenerateText g (JSValue.vStr p)).2 = [Contents.str (JSValue.vStr p)]
    ∧ (postRoute r g (JSValue.vStr p) (some f)).2
        = [Contents.parts [ContentPart.text (JSValue.vStr p),
            ContentPart.inlineData (base64Encode f.buffer) f.mimetype]] := by
  have hnp : (!isPromptValid (JSValue.vStr p)) = false := by rw [hp]; rfl
  constructor
  · unfold postGenerateText
    rw [hnp]
    simp only [Bool.false_eq_true, if_false]
    cases g (Contents.str (JSValue.vStr p)) <;> rfl
  · cases r <;>
      · simp_all only [postRoute, postGenerateFromImage,
          postGenerateFromDocument, postGenerateFromAudio, allowListFor,
          createUploadMiddleware, generateFromImageBody,
          generateFromDocumentBody, generateFromAudioBody,
          Nat.not_lt.mpr hs, Bool.false_eq_true, if_false, jsNullish]
        split <;> simp_all [Nat.not_lt.mpr hs]

/-- Claim C9 witness: the prompt with leading and trailing spaces is forwarded
with them preserved. -/
theorem C9_witness :
    (postGenerateText stubOk (JSValue.vStr "  hi  ")).2
      = [Contents.str (JSValue.vStr "  hi  ")]
    ∧ (postRoute AttachmentCategory.audio stubOk (JSValue.vStr "  hi  ")
        (some mp3File)).2
        = [Contents.parts [ContentPart.text (JSValue.vStr "  hi  "),
            ContentPart.inlineData (base64Encode mp3File.buffer)
              mp3File.mimetype]] :=
  C9_promptVerbatim stubOk "  hi  " (by decide) AttachmentCategory.audio
    mp3File rfl (by decide)

/-- Claim C10: the size ceiling is inclusive at the boundary: a file of size
at most 5 * 1024 * 1024 bytes (with admissible type) passes the gate;
the size rejection fires exactly for strictly larger files. -/
theorem C10_boundaryInclusive (fieldName : String) (allowed : List String)
    (f : UploadedFile) (ht : fileFilter allowed f = Except.ok ()) :
    (f.size ≤ MAX_FILE_SIZE_BYTES →
      createUploadMiddleware fieldName allowed (some f) = GateResult.pass (some f))
    ∧ (MAX_FILE_SIZE_BYTES < f.size →
      createUploadMiddleware fieldName allowed (some f)
        = GateResult.reject "File size exceeds 5MB limit") := by
  constructor
  · intro hs
    exact gatePass fieldName allowed f ht hs
  · intro hs
    simp [createUploadMiddleware, ht, hs, sizeMessage_eq]

/-- Claim C10 witness: an image attachment of exactly 5 * 1024 * 1024 bytes
passes the gate. -/
theorem C10_witness :
    createUploadMiddleware "image" IMAGE_MIME_TYPES (some boundaryFile)
      = GateResult.pass (some boundaryFile) :=
  (C10_boundaryInclusive "image" IMAGE_MIME_TYPES boundaryFile rfl).1
    (by decide)

end GeminiFlashApi
